import Mathlib

/-!
Shallow embedding of `src/tabview.rs` (the tab-management layer of the
`hunter` terminal UI): the `Tabbable` default key dispatch, the `TabView`
container with its lifecycle operations (`push_widget`, `pop_widget`,
`close_tab_`, `next_tab_`), and the container's `Widget` implementation
(`refresh`, `on_key`, `render_header`).

Modelling conventions:
- `usize` / `u16` values are natural numbers; arithmetic that can overflow
  is taken modulo `2 ^ 64` / `2 ^ 16` (Rust release-profile two's-complement
  wrapping; debug builds abort at the same spots instead, which only makes
  more states unreachable).
- Out-of-bounds `Vec` indexing (`self.widgets[self.active]`) and
  `Option::unwrap` on `None` abort the program in every profile; they are
  modelled as a distinct `crash` outcome that yields no successor state.
- `HResult` errors propagated with `?` are modelled by an `err` outcome
  carrying the state the container is left in.
- Panes are opaque (`TabView` is generic over `T`); a pane's own
  `refresh` / `render_header` behaviour lives outside this file's scope and
  is abstracted as succeeding (its result is a parameter where needed).
-/

namespace Hunter

/-- Error value of `HResult` (defined in `fail.rs`, outside `src/`).
Modelled from the spec: a typed error surfaced to the caller; `noneError`
is the conversion of `Option::None` performed by the `?` operator in
`pop_widget`, `hostError` stands for any failure produced by host-supplied
`Tabbable` methods. -/
inductive HError where
  | noneError
  | hostError
  deriving DecidableEq

/-- The tab container `TabView<T>` (src/tabview.rs, lines 28-33): the pane
sequence `widgets: Vec<T>` and the active index `active: usize`.  The
`core: WidgetCore` field (shared geometry/handles, external collaborator)
plays no role in any claim and is omitted. -/
structure TabView (T : Type) where
  widgets : List T
  active : Nat
  deriving DecidableEq

/-- Modulus of Rust's `usize` (64-bit target). -/
def USIZE : Nat := 2 ^ 64

/-- Modulus of Rust's `u16`. -/
def U16 : Nat := 2 ^ 16

/-- Outcome of one container operation: normal return with result and
successor state, typed `HResult` error with the state left behind, or
`crash` — a Rust panic (unchecked index out of bounds), which produces no
observable successor state. -/
inductive Outcome (T α : Type) where
  | ok : α → TabView T → Outcome T α
  | err : HError → TabView T → Outcome T α
  | crash : Outcome T α
  deriving DecidableEq

/-- `Widget::refresh` for `TabView` (src/tabview.rs, lines 121-123)
delegates to the active pane: `self.active_tab_mut().refresh()`.
Modelled from the spec: the host's `Tabbable::active_tab_mut` is the
write accessor for the active pane and delegates to `active_tab_mut_`
(src/tabview.rs, lines 59-61), which indexes `self.widgets[self.active]`
unchecked — out of range this is a panic (`none` here).  The pane's own
`refresh` is abstracted as succeeding. -/
def refreshTV {T : Type} (s : TabView T) : Option Unit :=
  if s.active < s.widgets.length then some () else none

/-- `TabView::push_widget` (src/tabview.rs, lines 44-47): append the pane
to `widgets`, then `self.refresh()`. -/
def push_widget {T : Type} (s : TabView T) (w : T) : Outcome T Unit :=
  let t : TabView T := ⟨s.widgets ++ [w], s.active⟩
  match refreshTV t with
  | some _ => .ok () t
  | none => .crash

/-- `TabView::pop_widget` (src/tabview.rs, lines 49-53):
`let widget = self.widgets.pop()?; self.refresh()?; Ok(widget)`.
`Vec::pop` removes and returns the last element; on the empty vector the
`?` converts `None` into an error and returns with the state unchanged. -/
def pop_widget {T : Type} (s : TabView T) : Outcome T T :=
  match s.widgets.getLast? with
  | none => .err .noneError s
  | some w =>
    let t : TabView T := ⟨s.widgets.dropLast, s.active⟩
    match refreshTV t with
    | some _ => .ok w t
    | none => .crash

/-- `TabView::close_tab_` (src/tabview.rs, lines 63-67):
`self.pop_widget()?; self.active -= 1; Ok(())`.  The decrement is `usize`
arithmetic: from `active = 0` it wraps modulo `2 ^ 64` (release profile;
a debug build aborts at the same spot). -/
def close_tab_ {T : Type} (s : TabView T) : Outcome T Unit :=
  match pop_widget s with
  | .ok _ t => .ok () ⟨t.widgets, (t.active + USIZE - 1) % USIZE⟩
  | .err e t => .err e t
  | .crash => .crash

/-- The active-index update performed by `TabView::next_tab_`
(src/tabview.rs, lines 69-76): `if self.active + 1 == self.widgets.len()
{ self.active = 0 } else { self.active += 1 }`, in `usize` arithmetic. -/
def next_tab_upd {T : Type} (s : TabView T) : TabView T :=
  if (s.active + 1) % USIZE = s.widgets.length then ⟨s.widgets, 0⟩
  else ⟨s.widgets, (s.active + 1) % USIZE⟩

/-- The `.log()` combinator of the `ErrorLog` trait (`fail.rs`, outside
`src/`).  Modelled from the spec: the error-log sink is a fire-and-forget
consumer of failures; a failed result is recorded and discarded, a
successful one logs nothing. -/
def errorLog : Except HError Unit → List HError
  | .ok _ => []
  | .error e => [e]

/-- `TabView::next_tab_` (src/tabview.rs, lines 69-76): update `active`
(wrapping to 0 past the last tab), then run the host's `on_next_tab` hook
and log — never propagate — its result.  The hook is host code outside
`src/` (its default, lines 10-12, is `Ok(())`); it is modelled by its
result value.  The function returns no `Result` in the source: the pair
here is the successor state and the list of errors sent to the log sink. -/
def next_tab_ {T : Type} (s : TabView T) (hookResult : Except HError Unit) :
    TabView T × List HError :=
  (next_tab_upd s, errorLog hookResult)

/-- States of `TabView` reachable from `TabView::new` (empty sequence,
`active = 0`; src/tabview.rs, lines 36-42) by the public operations.
A `crash` outcome aborts the program and yields no state; an `err`
outcome leaves the container in the state carried by the error. -/
inductive Reachable {T : Type} : TabView T → Prop where
  | init : Reachable ⟨[], 0⟩
  | push {s t : TabView T} {w : T} :
      Reachable s → push_widget s w = .ok () t → Reachable t
  | pop {s t : TabView T} {w : T} :
      Reachable s → pop_widget s = .ok w t → Reachable t
  | popErr {s t : TabView T} {e : HError} :
      Reachable s → pop_widget s = .err e t → Reachable t
  | close {s t : TabView T} :
      Reachable s → close_tab_ s = .ok () t → Reachable t
  | closeErr {s t : TabView T} {e : HError} :
      Reachable s → close_tab_ s = .err e t → Reachable t
  | next {s : TabView T} : Reachable s → Reachable (next_tab_upd s)

/-- Reachability restricted to call sequences that never invoke
`close_tab_` in a state with `active = 0` (the invocation whose `usize`
decrement underflows).  Identical to `Reachable` otherwise. -/
inductive ReachableSafe {T : Type} : TabView T → Prop where
  | init : ReachableSafe ⟨[], 0⟩
  | push {s t : TabView T} {w : T} :
      ReachableSafe s → push_widget s w = .ok () t → ReachableSafe t
  | pop {s t : TabView T} {w : T} :
      ReachableSafe s → pop_widget s = .ok w t → ReachableSafe t
  | popErr {s t : TabView T} {e : HError} :
      ReachableSafe s → pop_widget s = .err e t → ReachableSafe t
  | close {s t : TabView T} :
      ReachableSafe s → 1 ≤ s.active → close_tab_ s = .ok () t →
      ReachableSafe t
  | closeErr {s t : TabView T} {e : HError} :
      ReachableSafe s → close_tab_ s = .err e t → ReachableSafe t
  | next {s : TabView T} : ReachableSafe s → ReachableSafe (next_tab_upd s)

/-- Key events (the `termion::event::Key` enum, external collaborator).
Constructors mirror the upstream enum; the container only inspects
`Ctrl` and `Char`, all other values are opaque to it. -/
inductive Key where
  | Backspace
  | Left
  | Right
  | Up
  | Down
  | Home
  | End
  | PageUp
  | PageDown
  | BackTab
  | Delete
  | Insert
  | F : Nat → Key
  | Char : Char → Key
  | Alt : Char → Key
  | Ctrl : Char → Key
  | Null
  | Esc
  deriving DecidableEq

/-- One invocation made by the default `Tabbable::on_key` dispatch:
which of the four methods is called, and with which key for `on_key_sub`. -/
inductive TabCall where
  | newTab
  | closeTab
  | nextTab
  | onKeySub : Key → TabCall
  deriving DecidableEq

/-- Default `Tabbable::on_key` (src/tabview.rs, lines 17-24): the match on
the key, recorded as the list of method invocations it performs.  The
arms are tested in source order. -/
def on_key (key : Key) : List TabCall :=
  if key = .Ctrl 't' then [.newTab]
  else if key = .Ctrl 'w' then [.closeTab]
  else if key = .Char '\t' then [.nextTab]
  else [.onKeySub key]

/-- One step performed by `Widget::on_key` for `TabView`
(src/tabview.rs, lines 129-132). -/
inductive WAction where
  | dispatchKey : Key → WAction
  | refreshActive
  deriving DecidableEq

/-- `Widget::on_key` for `TabView` (src/tabview.rs, lines 129-132):
`Tabbable::on_key(self, key)?; self.refresh()`.  The Tabbable dispatch
routes into host-supplied methods (outside `src/`), so its result is a
parameter; the returned pair is the propagated result and the trace of
steps performed.  The `?` operator returns early on an error, so
`refresh` runs only after a successful dispatch (whose own result is
abstracted as success). -/
def widget_on_key (key : Key) (dispatchResult : Except HError Unit) :
    Except HError Unit × List WAction :=
  match dispatchResult with
  | .error e => (.error e, [.dispatchKey key])
  | .ok _ => (.ok (), [.dispatchKey key, .refreshActive])

/-- Modelled from the spec: `crate::term::invert()` (external terminal
rendering primitive, `term.rs` outside `src/`) — the escape sequence that
inverts text attributes.  Its exact contents are irrelevant to the claims;
only that it is an escape string not counted in `nums_length`. -/
def invert : String := "\x1b[7m"

/-- Modelled from the spec: `crate::term::reset()` — the escape sequence
restoring default text attributes. -/
def reset : String := "\x1b[m"

/-- Modelled from the spec: `crate::term::header_color()` — the escape
sequence selecting the header's base color. -/
def header_color : String := "\x1b[38;5;87m"

/-- Modelled from the spec: `crate::term::goto_xy(x, y)` — the escape
sequence moving the cursor to column `x`, row `y`. -/
def goto_xy (x y : Nat) : String :=
  "\x1b[" ++ toString y ++ ";" ++ toString x ++ "H"

/-- The string whose byte length `render_header` adds to `nums_length`
for tab `num`: `format!("{}:{} ", num, tab_names[num].unwrap())`
(src/tabview.rs, lines 92-94).  Its length equals the printable length of
the label shown for that tab. -/
def tabLabelPlain (num : Nat) (name : String) : String :=
  toString num ++ ":" ++ name ++ " "

/-- The label `render_header` appends to the tab strip for tab `num`:
the active tab is wrapped in invert/reset escapes and the header color is
restored afterwards (src/tabview.rs, lines 95-104). -/
def tabLabelShown (active num : Nat) (name : String) : String :=
  if num = active then
    " " ++ invert ++ toString num ++ ":" ++ name ++ reset ++ header_color
  else " " ++ toString num ++ ":" ++ name

/-- The fold over `0..widgets.len()` in `render_header`
(src/tabview.rs, lines 90-105): accumulates `nums_length` (printable byte
length, escapes excluded) and concatenates the shown labels.
`tab_names[num]` out of range and `.unwrap()` of a missing label are
panics, modelled as `none`. -/
def tabStrip (names : List (Option String)) (active : Nat) :
    List Nat → Option (Nat × String)
  | [] => some (0, "")
  | num :: rest => do
    let oname ← names[num]?
    let name ← oname
    let p ← tabStrip names active rest
    some ((tabLabelPlain num name).utf8ByteSize + p.1,
          tabLabelShown active num name ++ p.2)

/-- Wrapping `u16` subtraction: `xsize - nums_length as u16`
(src/tabview.rs, line 107) under Rust release-profile semantics; the cast
`as u16` truncates modulo `2 ^ 16` first. -/
def u16_wrap_sub (a b : Nat) : Nat := (a + U16 - b % U16) % U16

/-- `Widget::render_header` for `TabView` (src/tabview.rs, lines 86-114).
Parameters stand for the external inputs: `xsize` is the horizontal
extent from the geometry provider (`u16`), `paneHeader` the header string
returned by the active pane, `names` the host's `get_tab_names()`
(modelled from the spec: one optional label per pane, in pane order),
`count` is `self.widgets.len()` and `active` is `self.active`.  The
initial `self.active_tab_().render_header()?` indexes `widgets[active]`
unchecked, hence the `active < count` guard; `none` models a panic. -/
def render_header (xsize : Nat) (paneHeader : String)
    (names : List (Option String)) (count active : Nat) : Option String :=
  if active < count then
    match tabStrip names active (List.range count) with
    | none => none
    | some p =>
      some (paneHeader ++ header_color ++
            goto_xy (u16_wrap_sub xsize p.1) 1 ++ p.2)
  else none

/-- Inversion of a successful `push_widget`: the pane was appended, the
active index kept, and the refresh after the push was in range. -/
theorem push_widget_ok_elim {T : Type} {s t : TabView T} {w : T}
    (h : push_widget s w = .ok () t) :
    t = ⟨s.widgets ++ [w], s.active⟩ ∧ s.active < s.widgets.length + 1 := by
  unfold push_widget refreshTV at h
  dsimp only at h
  split at h
  case h_1 x heq =>
    injection h with h1 h2
    constructor
    · exact h2.symm
    · by_cases hc : s.active < (s.widgets ++ [w]).length
      · simpa using hc
      · rw [if_neg hc] at heq; exact absurd heq (by simp)
  case h_2 heq => exact absurd h (by simp)

/-- Inversion of a successful `pop_widget`: the tail was removed, the
active index kept, and the refresh after the pop was in range. -/
theorem pop_widget_ok_elim {T : Type} {s t : TabView T} {w : T}
    (h : pop_widget s = .ok w t) :
    t = ⟨s.widgets.dropLast, s.active⟩ ∧ s.active < s.widgets.length - 1 := by
  unfold pop_widget refreshTV at h
  cases hg : s.widgets.getLast? with
  | none => rw [hg] at h; exact absurd h (by simp)
  | some v =>
    rw [hg] at h
    dsimp only at h
    split at h
    case h_1 x heq =>
      injection h with h1 h2
      constructor
      · exact h2.symm
      · by_cases hc : s.active < s.widgets.dropLast.length
        · simpa [List.length_dropLast] using hc
        · rw [if_neg hc] at heq; exact absurd heq (by simp)
    case h_2 heq => exact absurd h (by simp)

/-- Inversion of a failing `pop_widget`: only the empty sequence fails,
and the state is left unchanged. -/
theorem pop_widget_err_elim {T : Type} {s t : TabView T} {e : HError}
    (h : pop_widget s = .err e t) : t = s ∧ s.widgets = [] := by
  unfold pop_widget refreshTV at h
  cases hg : s.widgets.getLast? with
  | none =>
    rw [hg] at h
    injection h with h1 h2
    exact ⟨h2.symm, List.getLast?_eq_none_iff.mp hg⟩
  | some v =>
    rw [hg] at h
    dsimp only at h
    split at h
    case h_1 x heq => exact absurd h (by simp)
    case h_2 heq => exact absurd h (by simp)

/-- Inversion of a successful `close_tab_`: the tail was removed and the
active index decremented with `usize` wraparound. -/
theorem close_tab_ok_elim {T : Type} {s t : TabView T}
    (h : close_tab_ s = .ok () t) :
    t = ⟨s.widgets.dropLast, (s.active + USIZE - 1) % USIZE⟩ ∧
      s.active < s.widgets.length - 1 := by
  unfold close_tab_ at h
  cases hp : pop_widget s with
  | ok w u =>
    rw [hp] at h
    obtain ⟨hu, hlt⟩ := pop_widget_ok_elim hp
    injection h with h1 h2
    subst hu
    exact ⟨h2.symm, hlt⟩
  | err e u => rw [hp] at h; exact absurd h (by simp)
  | crash => rw [hp] at h; exact absurd h (by simp)

/-- Inversion of a failing `close_tab_`: the early return of `?` leaves
the state unchanged. -/
theorem close_tab_err_elim {T : Type} {s t : TabView T} {e : HError}
    (h : close_tab_ s = .err e t) : t = s := by
  unfold close_tab_ at h
  cases hp : pop_widget s with
  | ok w u => rw [hp] at h; exact absurd h (by simp)
  | err f u =>
    rw [hp] at h
    injection h with h1 h2
    rw [h2.symm]
    exact (pop_widget_err_elim hp).1
  | crash => rw [hp] at h; exact absurd h (by simp)

/-- The inductive invariant for underflow-free reachability: the active
index is in range whenever the sequence is non-empty, and is a valid
`usize` value. -/
theorem reachableSafe_inv {T : Type} {s : TabView T} (h : ReachableSafe s) :
    (0 < s.widgets.length → s.active < s.widgets.length) ∧ s.active < USIZE := by
  induction h with
  | init =>
    refine ⟨by simp, ?_⟩
    show 0 < USIZE
    decide
  | push hr heq ih =>
    obtain ⟨ht, hlt⟩ := push_widget_ok_elim heq
    subst ht
    exact ⟨fun _ => by simpa using hlt, ih.2⟩
  | pop hr heq ih =>
    obtain ⟨ht, hlt⟩ := pop_widget_ok_elim heq
    subst ht
    exact ⟨fun _ => by simpa using hlt, ih.2⟩
  | popErr hr heq ih =>
    rw [(pop_widget_err_elim heq).1]
    exact ih
  | close hr hact heq ih =>
    rename_i s t
    obtain ⟨ht, hlt⟩ := close_tab_ok_elim heq
    subst ht
    have hU0 : 0 < USIZE := by decide
    have hU : s.active < USIZE := ih.2
    have hsub : s.active + USIZE - 1 = (s.active - 1) + USIZE := by omega
    have hmod : (s.active + USIZE - 1) % USIZE = s.active - 1 := by
      rw [hsub, Nat.add_mod_right]
      exact Nat.mod_eq_of_lt (by omega)
    dsimp only
    rw [hmod]
    constructor
    · intro hpos
      rw [List.length_dropLast] at hpos ⊢
      omega
    · omega
  | closeErr hr heq ih =>
    rw [close_tab_err_elim heq]
    exact ih
  | next hr ih =>
    rename_i s
    unfold next_tab_upd
    by_cases hc : (s.active + 1) % USIZE = s.widgets.length
    · rw [if_pos hc]
      dsimp only
      refine ⟨fun hpos => hpos, ?_⟩
      show 0 < USIZE
      decide
    · rw [if_neg hc]
      dsimp only
      have hle : (s.active + 1) % USIZE ≤ s.active + 1 := Nat.mod_le _ _
      have hU0 : 0 < USIZE := by decide
      refine ⟨fun hpos => ?_, Nat.mod_lt _ hU0⟩
      have ha := ih.1 hpos
      generalize hm : (s.active + 1) % USIZE = m at hc hle
      omega

/-- Claim C1, counterexample: starting from the new container, the call
sequence `push_widget; push_widget; close_tab_` succeeds (each step
returns `Ok`) yet leaves the reachable state
`widgets = [w], active = 2^64 - 1`, whose active index is out of range:
the `usize` decrement in `close_tab_` wraps below zero. -/
theorem C1_invariant_counterexample :
    Reachable (⟨[0], 18446744073709551615⟩ : TabView Nat) ∧
    0 < (⟨[0], 18446744073709551615⟩ : TabView Nat).widgets.length ∧
    ¬ (⟨[0], 18446744073709551615⟩ : TabView Nat).active <
        (⟨[0], 18446744073709551615⟩ : TabView Nat).widgets.length := by
  refine ⟨?_, by decide, by decide⟩
  have h0 : Reachable (⟨[], 0⟩ : TabView Nat) := Reachable.init
  have h1 : Reachable (⟨[0], 0⟩ : TabView Nat) :=
    Reachable.push (w := 0) h0 (by decide)
  have h2 : Reachable (⟨[0, 1], 0⟩ : TabView Nat) :=
    Reachable.push (w := 1) h1 (by decide)
  exact Reachable.close h2 (by decide)

/-- Claim C1 (amended): for every state reachable from the new container
through sequences of `push_widget`, `pop_widget`, `close_tab_`,
`next_tab_` in which `close_tab_` is never invoked while `active = 0`, a
non-empty pane sequence implies `active < len(widgets)`. -/
theorem C1_invariant_amended {T : Type} (s : TabView T) (hr : ReachableSafe s)
    (hne : 0 < s.widgets.length) : s.active < s.widgets.length :=
  (reachableSafe_inv hr).1 hne

/-- Claim C1, witness: the single-pane state reached by one `push_widget`
satisfies the invariant. -/
theorem C1_invariant_amended_witness :
    (⟨[5], 0⟩ : TabView Nat).active < (⟨[5], 0⟩ : TabView Nat).widgets.length :=
  C1_invariant_amended ⟨[5], 0⟩
    (ReachableSafe.push (w := 5) ReachableSafe.init (by decide)) (by decide)

/-- Claim C2: the default `Tabbable::on_key` dispatches control-t to
`new_tab` only, control-w to `close_tab` only, the tab character to
`next_tab` only, and every other key to `on_key_sub` exactly once with
that same key. -/
theorem C2_on_key_dispatch :
    on_key (Key.Ctrl 't') = [TabCall.newTab] ∧
    on_key (Key.Ctrl 'w') = [TabCall.closeTab] ∧
    on_key (Key.Char '\t') = [TabCall.nextTab] ∧
    ∀ k : Key, k ≠ Key.Ctrl 't' → k ≠ Key.Ctrl 'w' → k ≠ Key.Char '\t' →
      on_key k = [TabCall.onKeySub k] := by
  refine ⟨by decide, by decide, by decide, ?_⟩
  intro k h1 h2 h3
  simp [on_key, h1, h2, h3]

/-- Claim C2, witness: a non-reserved key is forwarded to `on_key_sub`. -/
theorem C2_on_key_dispatch_witness :
    on_key (Key.Char 'x') = [TabCall.onKeySub (Key.Char 'x')] :=
  C2_on_key_dispatch.2.2.2 (Key.Char 'x') (by decide) (by decide) (by decide)

/-- Claim C3: with at least one pane (and the vacuously true bound that
the pane count is a `usize` value), `next_tab_` sends
`active = N - 1` to `0` and `active = k < N - 1` to `k + 1`, for any
result of the `on_next_tab` hook. -/
theorem C3_next_tab_wraparound {T : Type} (s : TabView T)
    (r : Except HError Unit) (hU : s.widgets.length < USIZE) :
    (1 ≤ s.widgets.length → s.active = s.widgets.length - 1 →
        ((next_tab_ s r).1).active = 0) ∧
    (s.active < s.widgets.length - 1 →
        ((next_tab_ s r).1).active = s.active + 1) := by
  constructor
  · intro hN ha
    show (next_tab_upd s).active = 0
    unfold next_tab_upd
    have hc : (s.active + 1) % USIZE = s.widgets.length := by
      rw [ha, Nat.sub_add_cancel hN]
      exact Nat.mod_eq_of_lt hU
    rw [if_pos hc]
  · intro ha
    show (next_tab_upd s).active = s.active + 1
    unfold next_tab_upd
    have h2 : (s.active + 1) % USIZE = s.active + 1 := Nat.mod_eq_of_lt (by omega)
    have hc : ¬ (s.active + 1) % USIZE = s.widgets.length := by rw [h2]; omega
    rw [if_neg hc]
    dsimp only
    exact h2

/-- Claim C3, witness: with three panes, `next_tab_` wraps `active = 2`
to `0` and advances `active = 0` to `1`. -/
theorem C3_next_tab_wraparound_witness :
    ((next_tab_ (⟨[0, 1, 2], 2⟩ : TabView Nat) (Except.ok ())).1).active = 0 ∧
    ((next_tab_ (⟨[0, 1, 2], 0⟩ : TabView Nat) (Except.ok ())).1).active = 1 :=
  ⟨(C3_next_tab_wraparound ⟨[0, 1, 2], 2⟩ (Except.ok ()) (by decide)).1
      (by decide) (by decide),
   (C3_next_tab_wraparound ⟨[0, 1, 2], 0⟩ (Except.ok ()) (by decide)).2
      (by decide)⟩

/-- Claim C4: for every container state and every failing `on_next_tab`
hook, `next_tab_` performs exactly the same active-index update as with
a succeeding hook and returns normally (the function is total and
returns no error); the hook's error is passed to the log sink — and only
then — and discarded. -/
theorem C4_hook_failure_isolated {T : Type} (s : TabView T) (e : HError) :
    next_tab_ s (Except.error e) = (next_tab_upd s, [e]) ∧
    (next_tab_ s (Except.error e)).1 = (next_tab_ s (Except.ok ())).1 ∧
    (next_tab_ s (Except.ok ())).2 = [] :=
  ⟨rfl, rfl, rfl⟩

/-- Claim C5 (amended): on a non-empty sequence of length N with
`active < N - 1`, `pop_widget` returns the pane previously at index
`N - 1` and leaves the N-1 remaining panes with the active index
unchanged; on the empty sequence it returns the typed `noneError` with
the state completely unchanged.  (When `active ≥ N - 1` it panics
instead — see the counterexample.) -/
theorem C5_pop_widget_behaviour (T : Type) (s : TabView T) :
    (∀ h : s.active + 1 < s.widgets.length,
        pop_widget s =
          .ok (s.widgets.get ⟨s.widgets.length - 1, by omega⟩)
            ⟨s.widgets.dropLast, s.active⟩) ∧
    (s.widgets = [] → pop_widget s = .err .noneError s) := by
  constructor
  · intro h
    have hne : s.widgets ≠ [] := by
      intro hnil
      rw [hnil] at h
      simp at h
    have hg := List.getLast?_eq_getLast s.widgets hne
    have hgl : s.widgets.getLast hne =
        s.widgets.get ⟨s.widgets.length - 1, by omega⟩ := by
      rw [List.getLast_eq_getElem]
      simp [List.get_eq_getElem]
    have hc : s.active < s.widgets.dropLast.length := by
      rw [List.length_dropLast]; omega
    unfold pop_widget refreshTV
    rw [hg, hgl]
    dsimp only
    rw [if_pos hc]
  · intro h
    obtain ⟨ws, a⟩ := s
    dsimp only at h
    subst h
    rfl

/-- Claim C5, witness: popping `[3, 4, 5]` with `active = 0` returns the
tail pane `5` and leaves `[3, 4]` with the active index unchanged. -/
theorem C5_pop_widget_behaviour_witness :
    pop_widget (⟨[3, 4, 5], 0⟩ : TabView Nat) = .ok 5 ⟨[3, 4], 0⟩ :=
  (C5_pop_widget_behaviour Nat ⟨[3, 4, 5], 0⟩).1 (by decide)

/-- Claim C5, counterexample: on the non-empty single-pane container
(N = 1, `active = 0`), `pop_widget` does not return the removed pane with
a shortened sequence — its internal refresh panics. -/
theorem C5_counterexample :
    pop_widget (⟨[0], 0⟩ : TabView Nat) = .crash ∧
    pop_widget (⟨[0], 0⟩ : TabView Nat) ≠ .ok 0 ⟨[], 0⟩ :=
  ⟨by decide, by decide⟩

/-- Claim C6 (amended): when the container has at least two panes and
`1 ≤ active < len - 1`, `close_tab_` removes the last pane of the
sequence — regardless of which pane is active — decrements the active
index by exactly one and returns success.  Outside that range it fails:
typed error on the empty sequence, a panicking refresh for
`active = len - 1`, and a wrapping (not exact) decrement for
`active = 0`. -/
theorem C6_close_tab_amended {T : Type} (s : TabView T) (h1 : 1 ≤ s.active)
    (h2 : s.active < s.widgets.length - 1) (h3 : s.active < USIZE) :
    close_tab_ s = .ok () ⟨s.widgets.dropLast, s.active - 1⟩ := by
  have hne : s.widgets ≠ [] := by
    intro hnil; rw [hnil] at h2; simp at h2
  have hg := List.getLast?_eq_getLast s.widgets hne
  have hc : s.active < s.widgets.dropLast.length := by
    rw [List.length_dropLast]; omega
  have hU0 : 0 < USIZE := by decide
  have hmod : (s.active + USIZE - 1) % USIZE = s.active - 1 := by
    have hstep : s.active + USIZE - 1 = (s.active - 1) + USIZE := by omega
    rw [hstep, Nat.add_mod_right]
    exact Nat.mod_eq_of_lt (by omega)
  unfold close_tab_ pop_widget refreshTV
  rw [hg]
  dsimp only
  rw [if_pos hc]
  dsimp only
  rw [hmod]

/-- Claim C6, witness: closing on `[0, 1, 2]` with `active = 1` removes
the tail pane `2` and decrements the active index to `0`. -/
theorem C6_close_tab_amended_witness :
    close_tab_ (⟨[0, 1, 2], 1⟩ : TabView Nat) = .ok () ⟨[0, 1], 0⟩ :=
  C6_close_tab_amended ⟨[0, 1, 2], 1⟩ (by decide) (by decide) (by decide)

/-- Claim C6, counterexample: `close_tab_` does not succeed on every
container state — the empty container yields a typed error, the
single-pane container panics in the refresh, and with two panes and
`active = 0` the decrement wraps to `2^64 - 1` instead of subtracting
exactly one. -/
theorem C6_counterexample :
    close_tab_ (⟨[], 0⟩ : TabView Nat) = .err .noneError ⟨[], 0⟩ ∧
    close_tab_ (⟨[0], 0⟩ : TabView Nat) = .crash ∧
    close_tab_ (⟨[0, 1], 0⟩ : TabView Nat) =
      .ok () ⟨[0], 18446744073709551615⟩ :=
  ⟨by decide, by decide, by decide⟩

/-- Claim C7, counterexample: when the Tabbable dispatch step returns an
error, `Widget::on_key` for `TabView` propagates it via `?` and the
refresh of the active pane does not happen — contradicting "the refresh
happens whether or not the dispatch step returned an error". -/
theorem C7_counterexample :
    (widget_on_key (Key.Char 'x') (Except.error HError.hostError)).1 =
      Except.error HError.hostError ∧
    WAction.refreshActive ∉
      (widget_on_key (Key.Char 'x') (Except.error HError.hostError)).2 :=
  ⟨rfl, by decide⟩

/-- Claim C7 (amended): the container's `on_key` runs the Tabbable
dispatch first and then refreshes the active pane only when the dispatch
succeeded; a dispatch error is propagated by `?` and the refresh is
skipped. -/
theorem C7_on_key_then_refresh (k : Key) (e : HError) :
    widget_on_key k (Except.ok ()) =
      (Except.ok (), [WAction.dispatchKey k, WAction.refreshActive]) ∧
    widget_on_key k (Except.error e) =
      (Except.error e, [WAction.dispatchKey k]) :=
  ⟨rfl, rfl⟩

/-- Claim C8, counterexample: with header width 4 and one tab named
"abc" the strip's printable length is 6; the emitted offset is the
wrapped `u16` value 65534, not the exact value `4 - 6 = -2` — so the
subtraction is not exact for runs wider than the header. -/
theorem C8_counterexample :
    render_header 4 "H" [some "abc"] 1 0 =
      some ("H" ++ header_color ++ goto_xy 65534 1 ++
            tabLabelShown 0 0 "abc") ∧
    ¬ ((65534 : Int) = (4 : Int) - 6) :=
  ⟨by decide, by decide⟩

/-- Claim C8 (amended): whenever the tab strip's printable length
(escape sequences excluded) fits in the header width, the horizontal
offset is exactly `xsize - nums_length`, right-justified: offset plus
run length equals the width.  The subtraction is plain `u16` arithmetic,
so for a strip wider than the header it underflows and wraps modulo
`2 ^ 16` (release profile) instead of being exact. -/
theorem C8_header_offset (xsize : Nat) (paneHeader : String)
    (names : List (Option String)) (count active numsLength : Nat)
    (tabnums : String) (hx : xsize < U16) (ha : active < count)
    (hs : tabStrip names active (List.range count) = some (numsLength, tabnums))
    (hfit : numsLength ≤ xsize) :
    render_header xsize paneHeader names count active =
      some (paneHeader ++ header_color ++
            goto_xy (xsize - numsLength) 1 ++ tabnums) ∧
    u16_wrap_sub xsize numsLength = xsize - numsLength ∧
    (xsize - numsLength) + numsLength = xsize := by
  have hU0 : 0 < U16 := by decide
  have hw : u16_wrap_sub xsize numsLength = xsize - numsLength := by
    unfold u16_wrap_sub
    have hnl : numsLength % U16 = numsLength :=
      Nat.mod_eq_of_lt (show numsLength < U16 by omega)
    rw [hnl]
    have hstep : xsize + U16 - numsLength = (xsize - numsLength) + U16 := by
      omega
    rw [hstep, Nat.add_mod_right]
    exact Nat.mod_eq_of_lt (show xsize - numsLength < U16 by omega)
  refine ⟨?_, hw, by omega⟩
  unfold render_header
  rw [if_pos ha, hs]
  dsimp only
  rw [hw]

/-- Claim C8, witness: with width 80 and one tab named "abc" (printable
run length 6) the strip is emitted at offset 74. -/
theorem C8_header_offset_witness :
    render_header 80 "H" [some "abc"] 1 0 =
      some ("H" ++ header_color ++ goto_xy 74 1 ++ tabLabelShown 0 0 "abc") :=
  (C8_header_offset 80 "H" [some "abc"] 1 0 6 (tabLabelShown 0 0 "abc")
    (by decide) (by decide) (by decide) (by decide)).1

/-- Every tab index accessed in range and every label present makes the
tab-strip fold succeed. -/
theorem tabStrip_isSome (names : List (Option String)) (active : Nat) :
    ∀ nums : List Nat, (∀ n ∈ nums, n < names.length) →
      (∀ o ∈ names, o.isSome) → (tabStrip names active nums).isSome := by
  intro nums
  induction nums with
  | nil => intro _ _; simp [tabStrip]
  | cons num rest ih =>
    intro hlt hsome
    have h1 : num < names.length := hlt num (by simp)
    have h2 : names[num]? = some names[num] := List.getElem?_eq_getElem h1
    have h3 : names[num].isSome := hsome _ (List.getElem_mem h1)
    obtain ⟨name, hname⟩ := Option.isSome_iff_exists.mp h3
    have hrest := ih (fun n hn => hlt n (by simp [hn])) hsome
    obtain ⟨p, hp⟩ := Option.isSome_iff_exists.mp hrest
    simp [tabStrip, h2, hname, hp]

/-- Claim C9: when `get_tab_names` yields at least one entry per pane and
every entry is present, every label access of the tab-strip fold is in
range and every dereference succeeds (no panic branch is taken); and for
an input with a missing label — one pane, `get_tab_names` returning
`[None]` — the unconditional `.unwrap()` in `render_header` fails. -/
theorem C9_label_contract (names : List (Option String)) (count active : Nat)
    (hlen : count ≤ names.length) (hsome : ∀ o ∈ names, o.isSome) :
    (tabStrip names active (List.range count)).isSome ∧
    render_header 80 "H" [none] 1 0 = none := by
  refine ⟨tabStrip_isSome names active (List.range count) ?_ hsome, by decide⟩
  intro n hn
  have := List.mem_range.mp hn
  omega

/-- Claim C9, witness: two panes with two present labels render without
panic, and the one-pane missing-label input fails. -/
theorem C9_label_contract_witness :
    (tabStrip [some "a", some "b"] 0 (List.range 2)).isSome ∧
    render_header 80 "H" [none] 1 0 = none :=
  C9_label_contract [some "a", some "b"] 2 0 (by decide) (by decide)

/-- Claim C10: from any non-empty state whose active index is the last
position (`active = len(widgets) - 1`, in particular any single-pane
container), `pop_widget` panics — its refresh step indexes
`widgets[active]` out of range on the shortened sequence — instead of
returning the removed pane normally. -/
theorem C10_pop_widget_refresh_oob {T : Type} (s : TabView T)
    (h1 : s.widgets ≠ []) (h2 : s.active = s.widgets.length - 1) :
    pop_widget s = .crash := by
  have hg := List.getLast?_eq_getLast s.widgets h1
  have hc : ¬ s.active < s.widgets.dropLast.length := by
    rw [List.length_dropLast]; omega
  unfold pop_widget refreshTV
  rw [hg]
  dsimp only
  rw [if_neg hc]

/-- Claim C10, witness: the single-pane container panics on `pop_widget`. -/
theorem C10_pop_widget_refresh_oob_witness :
    pop_widget (⟨[7], 0⟩ : TabView Nat) = .crash :=
  C10_pop_widget_refresh_oob ⟨[7], 0⟩ (by decide) (by decide)

end Hunter
